import Mathlib

/-!
# Verification of the Swahili M-PESA message parser

Shallow embedding of `swaili_mpesa_parser.py`.  The Python module builds one
compiled regular expression (optional confirmation preamble, an ordered
alternation over nine category grammars, three optional trailing-information
extractors), checks an independent case-sensitive failure pattern first, and
post-processes the raw capture dictionary.

The regex engine below is a backtracking matcher with Python `re` semantics
for the constructs the source uses: ordered alternation, greedy/lazy token
repetition, optional groups (greedy), named capture groups, leftmost search.
`re.IGNORECASE` is modelled by matching a case-folded copy of the input
against patterns written in folded (lower-case) form, which coincides with
Python's behaviour on the ASCII patterns of this module; capture values are
sliced from the original text, as `groupdict` returns them.  `re.DOTALL`
makes `.` match every character, which is how the wildcard token behaves.
Characters are represented by their code points (`Nat`).
-/

namespace MPesa

/-- Python `\d` on ASCII input: code points of '0'..'9'. -/
def isDigitCode (n : Nat) : Bool := 48 ≤ n && n ≤ 57

/-- Python `\s` on ASCII input: space, tab, newline, CR, vertical tab, form feed. -/
def isSpaceCode (n : Nat) : Bool :=
  n = 32 || n = 9 || n = 10 || n = 13 || n = 11 || n = 12

/-- ASCII case folding, the effect `re.IGNORECASE` has on the module's patterns. -/
def foldNat (n : Nat) : Nat := if 65 ≤ n && n ≤ 90 then n + 32 else n

/-- Code points of a string. -/
def strCodes (s : String) : List Nat := s.data.map Char.toNat

/-- Case-folded code points of a string. -/
def foldCodes (s : String) : List Nat := (strCodes s).map foldNat

/-- Single-character matchers: exactly the character classes appearing in the
source patterns (literal, `\d`, `\s`, `.` under DOTALL, `[\d,.]`, `[A-Z0-9]`
folded, `[^0-9]`, `[^k]` folded, `[AP]` folded). -/
inductive Tok where
  | lit (n : Nat)
  | digit
  | space
  | wild
  | amountChar
  | idChar
  | nonDigit
  | notK
  | meridiem
  deriving DecidableEq

def Tok.matches : Tok → Nat → Bool
  | .lit m, n => n = m
  | .digit, n => isDigitCode n
  | .space, n => isSpaceCode n
  | .wild, _ => true
  | .amountChar, n => isDigitCode n || n = 44 || n = 46
  | .idChar, n => isDigitCode n || (97 ≤ n && n ≤ 122)
  | .nonDigit, n => !isDigitCode n
  | .notK, n => n ≠ 107
  | .meridiem, n => n = 97 || n = 112

/-- Regular expressions over `Tok`, covering the constructs of the source;
every quantifier in the source applies to a single character class, so
repetition is over `Tok` (`lo`/`hi` bounds, `lazy` for `+?`, `*?`). -/
inductive RE where
  | eps
  | tok (t : Tok)
  | seq (a b : RE)
  | alt (a b : RE)
  | opt (a : RE)
  | rep (lo : Nat) (hi : Option Nat) (lazy : Bool) (t : Tok)
  | grp (name : String) (a : RE)
  deriving DecidableEq

/-- Captures: group name with start and end offsets into the subject. -/
abbrev Caps := List (String × Nat × Nat)

/-- First-success choice, lazy in the second alternative. -/
def oelse (a : Option Caps) (b : Unit → Option Caps) : Option Caps :=
  match a with
  | some v => some v
  | none => b ()

/-- Bounded token repetition, continuation-passing.  Greedy repetition prefers
consuming another character and falls back to the continuation; lazy
repetition tries the continuation first — Python's backtracking order. -/
def repMatch (t : Tok) (lz : Bool) (k : List Nat → Nat → Caps → Option Caps) :
    List Nat → Nat → Option Nat → Nat → Caps → Option Caps
  | [], lo, _, pos, caps => if lo = 0 then k [] pos caps else none
  | c :: rest, lo, hi, pos, caps =>
    if hi = some 0 then
      (if lo = 0 then k (c :: rest) pos caps else none)
    else
      if lo = 0 then
        if lz then
          oelse (k (c :: rest) pos caps)
            (fun _ => if t.matches c then
                repMatch t lz k rest 0 (hi.map (· - 1)) (pos + 1) caps else none)
        else
          oelse (if t.matches c then
              repMatch t lz k rest 0 (hi.map (· - 1)) (pos + 1) caps else none)
            (fun _ => k (c :: rest) pos caps)
      else
        if t.matches c then
          repMatch t lz k rest (lo - 1) (hi.map (· - 1)) (pos + 1) caps
        else none

/-- Backtracking matcher.  `reMatch r s pos caps k` tries to match `r` at the
head of `s` (absolute offset `pos`), extending `caps` and calling `k` with
the remainder on success; alternation and option try the left/present branch
first, as Python does. -/
def reMatch : RE → List Nat → Nat → Caps → (List Nat → Nat → Caps → Option Caps) →
    Option Caps
  | .eps, s, pos, caps, k => k s pos caps
  | .tok t, s, pos, caps, k =>
    match s with
    | [] => none
    | c :: rest => if t.matches c then k rest (pos + 1) caps else none
  | .seq a b, s, pos, caps, k =>
    reMatch a s pos caps (fun s1 p1 c1 => reMatch b s1 p1 c1 k)
  | .alt a b, s, pos, caps, k =>
    oelse (reMatch a s pos caps k) (fun _ => reMatch b s pos caps k)
  | .opt a, s, pos, caps, k =>
    oelse (reMatch a s pos caps k) (fun _ => k s pos caps)
  | .rep lo hi lz t, s, pos, caps, k => repMatch t lz k s lo hi pos caps
  | .grp n a, s, pos, caps, k =>
    reMatch a s pos caps (fun s1 p1 c1 => k s1 p1 ((n, pos, p1) :: c1))

/-- Top-level continuation: a completed match returns its captures. -/
def kTop : List Nat → Nat → Caps → Option Caps := fun _ _ caps => some caps

/-- `re.search`: try a match at every position, leftmost first. -/
def reSearch (r : RE) : List Nat → Nat → Option Caps
  | [], pos =>
    match reMatch r [] pos [] kTop with
    | some caps => some caps
    | none => none
  | c :: rest, pos =>
    match reMatch r (c :: rest) pos [] kTop with
    | some caps => some caps
    | none => reSearch r rest (pos + 1)

/-- Group names of a pattern in definition order (the order of `groupdict`). -/
def RE.groupNames : RE → List String
  | .eps | .tok _ | .rep _ _ _ _ => []
  | .seq a b | .alt a b => a.groupNames ++ b.groupNames
  | .opt a => a.groupNames
  | .grp n a => n :: a.groupNames

/-- A literal character of a pattern: `' '` stands for `\s` (every literal
whitespace in the source patterns is written `\s`), anything else matches
itself. -/
def plitTok (n : Nat) : Tok := if n = 32 then Tok.space else Tok.lit n

def litsL : List Nat → RE
  | [] => RE.eps
  | n :: ns => RE.seq (RE.tok (plitTok n)) (litsL ns)

/-- Literal word sequence of a pattern (spaces = `\s`). -/
def lits (s : String) : RE := litsL (strCodes s)

def cat (l : List RE) : RE := l.foldr RE.seq RE.eps

def altL : List RE → RE
  | [] => RE.eps
  | [r] => r
  | r :: rest => RE.alt r (altL rest)

def rep1 (t : Tok) : RE := RE.rep 1 none false t
def rep1L (t : Tok) : RE := RE.rep 1 none true t
def rep0 (t : Tok) : RE := RE.rep 0 none false t
def rep0L (t : Tok) : RE := RE.rep 0 none true t
def repN (a b : Nat) (t : Tok) : RE := RE.rep a (some b) false t

/-- `\d{1,2}/\d{1,2}/\d{2}`. -/
def dateRE : RE :=
  cat [repN 1 2 .digit, lits "/", repN 1 2 .digit, lits "/", repN 2 2 .digit]

/-- `\d{1,2}:\d{2}\s*[AP]M` (folded). -/
def timeRE : RE :=
  cat [repN 1 2 .digit, lits ":", repN 2 2 .digit, rep0 .space,
    RE.tok .meridiem, lits "m"]

/-- `(?P<transaction_id>[A-Z0-9]{10})\s+Imethibitishwa\.?\s*` (folded). -/
def base_pattern : RE :=
  cat [RE.grp "transaction_id" (repN 10 10 .idChar), rep1 .space,
    lits "imethibitishwa", RE.opt (lits "."), rep0 .space]

def kutumaRE : RE :=
  cat [lits "ksh", RE.grp "kutuma_amount" (rep1 .amountChar),
    lits " imetumwa kwa ", RE.grp "kutuma_recipient" (rep1L .nonDigit),
    RE.tok .space, RE.grp "kutuma_phone" (repN 10 10 .digit), RE.tok .space,
    RE.alt (lits "tarehe") (lits "siku"), RE.tok .space,
    RE.grp "kutuma_date" dateRE, lits " saa ", RE.grp "kutuma_time" timeRE]

def kupokeaRE : RE :=
  cat [lits "umepokea ksh", RE.grp "kupokea_amount" (rep1 .amountChar),
    lits " kutoka ", RE.grp "kupokea_sender" (rep1L .nonDigit),
    RE.tok .space, RE.grp "kupokea_phone" (repN 10 10 .digit),
    lits " mnamo ", RE.grp "kupokea_date" dateRE, lits " saa ",
    RE.grp "kupokea_time" timeRE]

def salioRE : RE :=
  cat [lits "baki yako ni: akaunti ya m-pesa : ksh",
    RE.grp "salio_amount" (rep1 .amountChar), RE.tok .space,
    RE.alt (lits "tarehe") (lits "tarehe"), RE.tok .space,
    RE.grp "salio_date" dateRE, lits " saa ", RE.grp "salio_time" timeRE]

def kulipaTillRE : RE :=
  cat [lits "umelipa ksh", RE.grp "kulipa_amount" (rep1 .amountChar),
    lits " kwa ", RE.grp "kulipa_merchant" (rep1L .nonDigit), RE.tok .space,
    RE.grp "kulipa_date" dateRE, RE.tok .space, RE.grp "kulipa_time" timeRE]

def dataRE : RE :=
  cat [lits "ksh", RE.grp "data_amount" (rep1 .amountChar),
    lits " zimetumwa kwa safaricom data bundles",
    RE.opt (lits " kwa akaunti safaricom data bundles"),
    lits " mnamo ", RE.grp "data_date" dateRE, lits " saa ",
    RE.grp "data_time" timeRE]

def mjazoRE : RE :=
  cat [lits "umenunua ksh", RE.grp "mjazo_amount" (rep1 .amountChar),
    lits " ya mjazo ", RE.alt (lits "siku") (lits "tarehe"), RE.tok .space,
    RE.grp "mjazo_date" dateRE, lits " saa ", RE.grp "mjazo_time" timeRE]

def paybillRE : RE :=
  cat [lits "ksh", RE.grp "paybill_amount" (rep1 .amountChar),
    lits " imetumwa kwa ", RE.grp "paybill_name" (rep1L .notK),
    lits " kwa akaunti nambari ", RE.grp "paybill_account" (rep1 .digit)]

def kupokeaBankRE : RE :=
  cat [lits "umepokea ksh", RE.grp "kupokea_bank_amount" (rep1 .amountChar),
    lits " kutoka ", RE.grp "kupokea_bank_name" (rep1L .nonDigit),
    RE.tok .space, RE.grp "kupokea_bank_account" (rep1 .digit),
    lits " mnamo ", RE.grp "kupokea_bank_date" dateRE, lits " saa ",
    RE.grp "kupokea_bank_time" timeRE]

def pochiRE : RE :=
  cat [lits "ksh", RE.grp "pochi_amount" (rep1 .amountChar),
    lits " imetumwa kwa ", RE.grp "pochi_recipient" (rep1L .nonDigit),
    RE.tok .space, RE.alt (lits "tarehe") (lits "siku"), RE.tok .space,
    RE.grp "pochi_date" dateRE, lits " saa ", RE.grp "pochi_time" timeRE]

/-- The ordered category-grammar registry `self.transaction_patterns`. -/
def transaction_patterns : List (String × RE) :=
  [("KUTUMA", kutumaRE), ("KUPOKEA", kupokeaRE), ("SALIO", salioRE),
   ("KULIPA_TILL", kulipaTillRE), ("DATA", dataRE), ("MJAZO", mjazoRE),
   ("PAYBILL", paybillRE), ("KUPOKEA_BANK", kupokeaBankRE),
   ("POCHI_LA_BIASHARA", pochiRE)]

/-- `self.transaction_patterns.keys()`. -/
def txTypes : List String := transaction_patterns.map (·.1)

def mpesaBalanceRE : RE :=
  cat [lits "baki ", RE.alt (lits "yako") (lits "mpya"),
    altL [lits " ya", lits " mpya katika", lits " katika"],
    lits " m-pesa ni ksh", RE.grp "mpesa_balance" (rep1 .amountChar)]

def transactionCostRE : RE :=
  cat [lits "gharama ya ",
    altL [lits "kutuma", lits "kununua", lits "matumizi", lits "kulipa"],
    lits " ni ksh", RE.grp "transaction_cost" (rep1 .amountChar)]

def dailyLimitRE : RE :=
  cat [lits "kiwango cha pesa unachoweza kutuma kwa siku ni ",
    RE.grp "daily_limit" (rep1 .amountChar)]

/-- `self.additional_patterns`, in their fixed order. -/
def additional_patterns : List RE :=
  [mpesaBalanceRE, transactionCostRE, dailyLimitRE]

/-- `compile_patterns`: optional preamble, ordered alternation of the wrapped
category grammars, then each trailing extractor as `(?:.*?p)?`. -/
def pattern : RE :=
  cat [RE.opt base_pattern,
    altL (transaction_patterns.map (fun p => RE.grp p.1 p.2)),
    cat (additional_patterns.map (fun p => RE.opt (cat [rep0L .wild, p])))]

/-- `self.failed_pattern` — compiled WITHOUT `re.IGNORECASE`, so literal
characters keep their case; the group records the span of `group(0)`. -/
def failed_pattern : RE :=
  RE.grp "failed"
    (altL [lits "Hakuna pesa za kutosha", lits "Imefeli",
      lits "Umekataa kuidhinisha amali", lits "Huduma hi haipatikani"])

/-- The four failure phrases, as plain text (the `\s` separators written as
single spaces). -/
def failedPhrases : List String :=
  ["Hakuna pesa za kutosha", "Imefeli", "Umekataa kuidhinisha amali",
   "Huduma hi haipatikani"]

/-! ## Amount normalizer (`clean_amount`)

Python floats hold only values that the claims compare for equality after
exact decimal parsing, so amounts are modelled as rationals.  `float(str)`
raising `ValueError` is modelled as `none`; `floatOfCodes` accepts exactly
the unsigned decimal literals (`"12"`, `"12.5"`, `".5"`, `"5."`) — the only
forms reachable here, since every normalized fragment consists of digits and
periods (signs, exponents, `inf`/`nan` and digit-group underscores cannot
occur in text captured by `[\d,.]`). -/

def natOfDigits (l : List Nat) : Nat := l.foldl (fun acc n => acc * 10 + (n - 48)) 0

def floatOfCodes (l : List Nat) : Option Rat :=
  let ip := l.takeWhile isDigitCode
  let rest := l.dropWhile isDigitCode
  match rest with
  | [] => if ip = [] then none else some (mkRat (natOfDigits ip) 1)
  | 46 :: frac =>
    if frac.all isDigitCode ∧ (ip ≠ [] ∨ frac ≠ []) then
      some (mkRat (natOfDigits ip * 10 ^ frac.length + natOfDigits frac) (10 ^ frac.length))
    else none
  | _ => none

/-- Python `str.strip()` on code points. -/
def stripWsL (l : List Nat) : List Nat :=
  ((l.dropWhile isSpaceCode).reverse.dropWhile isSpaceCode).reverse

/-- Python `str.rstrip('.')` on code points. -/
def rstripDotL (l : List Nat) : List Nat :=
  (l.reverse.dropWhile (fun n => n = 46)).reverse

/-- `clean_amount`: empty (falsy) input yields `0.0`; otherwise remove commas
and spaces, strip whitespace, strip trailing periods, and run `float` —
whose `ValueError` is `none` (the source does NOT catch it). -/
def clean_amount (s : String) : Option Rat :=
  if s = "" then some 0
  else
    floatOfCodes (rstripDotL (stripWsL
      (((strCodes s).filter (fun n => n ≠ 44)).filter (fun n => n ≠ 32))))

/-! ## Timestamp combiner (`datetime.strptime` with `'%d/%m/%y %I:%M %p'`) -/

structure DT where
  year : Nat
  month : Nat
  day : Nat
  hour : Nat
  minute : Nat
  deriving DecidableEq

def isLeap (y : Nat) : Bool := (y % 4 = 0 && y % 100 ≠ 0) || y % 400 = 0

def daysInMonth (y m : Nat) : Nat :=
  if m = 2 then (if isLeap y then 29 else 28)
  else if m = 4 ∨ m = 6 ∨ m = 9 ∨ m = 11 then 30
  else 31

/-- `datetime.strptime(s, '%d/%m/%y %I:%M %p')`: 1-2 digit day and month,
2 digit year (00-68 → 20xx, 69-99 → 19xx per `%y`), 12-hour clock with
minutes and an AM/PM marker; `datetime` validates the field ranges.
Failure (Python's `ValueError`) is `none`. -/
def strptimeDMYhm (s : String) : Option DT :=
  let l := strCodes s
  let dayD := l.takeWhile isDigitCode
  let r1 := l.dropWhile isDigitCode
  match r1 with
  | 47 :: r2 =>
    let monD := r2.takeWhile isDigitCode
    let r3 := r2.dropWhile isDigitCode
    match r3 with
    | 47 :: r4 =>
      let yrD := r4.takeWhile isDigitCode
      let r5 := r4.dropWhile isDigitCode
      match r5 with
      | 32 :: r6 =>
        let hrD := r6.takeWhile isDigitCode
        let r7 := r6.dropWhile isDigitCode
        match r7 with
        | 58 :: r8 =>
          let mnD := r8.takeWhile isDigitCode
          let r9 := r8.dropWhile isDigitCode
          let day := natOfDigits dayD
          let mon := natOfDigits monD
          let yy := natOfDigits yrD
          let yr := if yy ≤ 68 then 2000 + yy else 1900 + yy
          let hr := natOfDigits hrD
          let mn := natOfDigits mnD
          let ok := decide (1 ≤ dayD.length) && dayD.length ≤ 2 &&
            (1 ≤ monD.length) && monD.length ≤ 2 && yrD.length = 2 &&
            (1 ≤ hrD.length) && hrD.length ≤ 2 && mnD.length = 2 &&
            (1 ≤ day) && day ≤ daysInMonth yr mon && (1 ≤ mon) && mon ≤ 12 &&
            (1 ≤ hr) && hr ≤ 12 && mn ≤ 59
          match r9 with
          | [32, 65, 77] => if ok then some ⟨yr, mon, day, hr % 12, mn⟩ else none
          | [32, 80, 77] => if ok then some ⟨yr, mon, day, hr % 12 + 12, mn⟩ else none
          | [32, 97, 109] => if ok then some ⟨yr, mon, day, hr % 12, mn⟩ else none
          | [32, 112, 109] => if ok then some ⟨yr, mon, day, hr % 12 + 12, mn⟩ else none
          | _ => none
        | _ => none
      | _ => none
    | _ => none
  | _ => none

/-! ## Parse results

`parse_message` returns a Python `dict`, modelled as an insertion-ordered
association list: updating an existing key keeps its position, a new key is
appended, deletion preserves the order of the rest — Python dict semantics. -/

inductive V where
  | str (s : String)
  | num (q : Rat)
  | dt (d : DT)
  deriving DecidableEq

abbrev Dict := List (String × V)

def dget : Dict → String → Option V
  | [], _ => none
  | p :: d, k => if p.1 = k then some p.2 else dget d k

def dset (d : Dict) (k : String) (v : V) : Dict :=
  if d.any (fun p => p.1 = k) then
    d.map (fun p => if p.1 = k then (k, v) else p)
  else d ++ [(k, v)]

def ddel (d : Dict) (k : String) : Dict := d.filter (fun p => p.1 ≠ k)

/-- Python truthiness of the values a result dict can hold. -/
def truthy : Option V → Bool
  | some (.str s) => s ≠ ""
  | some (.num q) => q ≠ 0
  | some (.dt _) => true
  | none => false

/-- Python `str.lower()`. -/
def pyLower (s : String) : String := String.mk (s.data.map Char.toLower)

/-- Python `str.strip()`. -/
def pyStrip (s : String) : String :=
  String.mk (((s.data.dropWhile (fun c => isSpaceCode c.toNat)).reverse.dropWhile
    (fun c => isSpaceCode c.toNat)).reverse)

/-- `message[i:j]`. -/
def slice (msg : String) (i j : Nat) : String :=
  String.mk ((msg.data.drop i).take (j - i))

/-- The failure check: `self.failed_pattern.search(message)` on the raw
(case-preserved) text, returning the span of `group(0)`. -/
def failedSearch (msg : String) : Option (Nat × Nat) :=
  (reSearch failed_pattern (strCodes msg) 0).bind (List.lookup "failed")

/-- `self.pattern.search(message)`: the composite matcher runs on the folded
text (IGNORECASE); captures are spans into the message. -/
def mainSearch (msg : String) : Option Caps :=
  reSearch pattern (foldCodes msg) 0

def cleanAmountV : V → Option Rat
  | .str s => clean_amount s
  | _ => none

/-- The category loop of `parse_message`: find the first registered category
whose wrapper group captured (truthy) text, tag the result, and — only when
`tag.lower() + "_amount"` is a key — normalize it into `kiasi` and delete
the raw key.  `none` models the uncaught `ValueError` of `clean_amount`. -/
def goTx : List String → Dict → Option Dict
  | [], d => some d
  | t :: ts, d =>
    if truthy (dget d t) then
      match dget (dset d "aina_ya_muamala" (V.str t)) (pyLower t ++ "_amount") with
      | some v => (cleanAmountV v).bind fun q =>
          some (ddel (dset (dset d "aina_ya_muamala" (V.str t)) "kiasi" (V.num q))
            (pyLower t ++ "_amount"))
      | none => some (dset d "aina_ya_muamala" (V.str t))
    else goTx ts d

/-- `numeric_fields` of `parse_message`. -/
def numeric_fields : List (String × String) :=
  [("mpesa_balance", "salio_la_mpesa"), ("transaction_cost", "gharama"),
   ("daily_limit", "kikomo_cha_siku")]

def numFold : List (String × String) → Dict → Option Dict
  | [], d => some d
  | (ek, sk) :: rest, d =>
    match dget d ek with
    | some v => (cleanAmountV v).bind (fun q => numFold rest (ddel (dset d sk (V.num q)) ek))
    | none => numFold rest d

/-- The date/time combination step: only runs when the dict has keys
`"date"` and `"time"`; a `strptime` failure is caught (`except ValueError:
pass`). -/
def dtStep (d : Dict) : Dict :=
  match dget d "date", dget d "time" with
  | some (.str ds), some (.str ts) =>
    match strptimeDMYhm (ds ++ " " ++ ts) with
    | some t => ddel (ddel (dset d "tarehe_na_saa" (V.dt t)) "date") "time"
    | none => d
  | _, _ => d

/-- `parse_message`.  The result is `some dict` when the Python function
returns; `none` models an exception escaping it (only `clean_amount` can
raise one).  The `isinstance` guard is outside a `String`-typed model. -/
def parse_message (msg : String) : Option Dict :=
  match failedSearch msg with
  | some (i, j) =>
    some [("hali", V.str "IMESHINDIKANA"), ("sababu", V.str (slice msg i j)),
      ("ujumbe_asili", V.str msg)]
  | none =>
    match mainSearch msg with
    | none => some [("error", V.str "Muundo wa ujumbe hautambuliwi")]
    | some caps =>
      let d0 : Dict := pattern.groupNames.filterMap
        (fun n => (List.lookup n caps).map (fun sp => (n, V.str (slice msg sp.1 sp.2))))
      let d1 := d0.map (fun p =>
        match p.2 with
        | .str s => (p.1, V.str (pyStrip s))
        | v => (p.1, v))
      let d2 := dset d1 "hali" (V.str "IMEFAULU")
      (goTx txTypes d2).bind fun d3 =>
        (numFold numeric_fields d3).bind fun d4 =>
          some (dtStep d4)

/-! ## Derived observation functions -/

/-- Which category branch of the composite matcher participated: the first
registered tag whose wrapper group captured.  This is the classification
the composite matcher produces, a function of the case-folded text only. -/
def matchedTag (msg : String) : Option String :=
  match mainSearch msg with
  | none => none
  | some caps => txTypes.find? (fun t => (List.lookup t caps).isSome)

/-- Whether a single category grammar, taken on its own, matches anywhere in
the message (under the composite matcher's IGNORECASE folding), and where:
the span of the whole grammar at the leftmost position where it matches. -/
def grammarSpan (tag : String) (msg : String) : Option (Nat × Nat) :=
  (List.lookup tag transaction_patterns).bind fun r =>
    (reSearch (RE.grp "whole" r) (foldCodes msg) 0).bind (List.lookup "whole")

/-- Literal (case-sensitive) substring occurrence, on code points. -/
def prefixOfB : List Nat → List Nat → Bool
  | [], _ => true
  | _ :: _, [] => false
  | a :: as, b :: bs => a == b && prefixOfB as bs

def occursInB (p : List Nat) : List Nat → Bool
  | [] => prefixOfB p []
  | m :: rest => prefixOfB p (m :: rest) || occursInB p rest

/-- The message contains one of the four fixed failure phrases verbatim. -/
def containsFailurePhrase (msg : String) : Bool :=
  failedPhrases.any (fun p => occursInB (strCodes p) (strCodes msg))

/-- A string with every thousands separator (comma) removed. -/
def removeCommas (s : String) : String :=
  String.mk (s.data.filter (fun c => c.toNat ≠ 44))

/-! ## Concrete scenario messages and their parse results -/

/-- The balance-inquiry scenario of the specification. -/
def msgBalanceInquiry : String :=
  "TAD72CZ6J3 Imethibitishwa. Baki yako ni: Akaunti ya M-PESA : Ksh263.47 Tarehe 13/1/25 saa 5:36 PM."

def dBalanceInquiry : Dict :=
  [("transaction_id", V.str "TAD72CZ6J3"),
   ("SALIO", V.str "Baki yako ni: Akaunti ya M-PESA : Ksh263.47 Tarehe 13/1/25 saa 5:36 PM"),
   ("salio_date", V.str "13/1/25"), ("salio_time", V.str "5:36 PM"),
   ("hali", V.str "IMEFAULU"), ("aina_ya_muamala", V.str "SALIO"),
   ("kiasi", V.num (mkRat 26347 100))]

/-- The send-money scenario of the specification, with the real intervening
sentences of the source's test message in place of the ellipsis. -/
def msgSendMoney : String :=
  "TAE16URS8R Imethibitishwa Ksh10.00 imetumwa kwa MERCILINE OSEWE tarehe 14/1/25 saa 6:34 PM. Baki yako ya M-PESA ni Ksh113.47. Gharama ya kutuma ni Ksh0.00. Kiwango cha Pesa unachoweza kutuma kwa siku ni 499,870.00."

def dSendMoney : Dict :=
  [("transaction_id", V.str "TAE16URS8R"),
   ("POCHI_LA_BIASHARA", V.str "Ksh10.00 imetumwa kwa MERCILINE OSEWE tarehe 14/1/25 saa 6:34 PM"),
   ("pochi_amount", V.str "10.00"), ("pochi_recipient", V.str "MERCILINE OSEWE"),
   ("pochi_date", V.str "14/1/25"), ("pochi_time", V.str "6:34 PM"),
   ("hali", V.str "IMEFAULU"), ("aina_ya_muamala", V.str "POCHI_LA_BIASHARA"),
   ("salio_la_mpesa", V.num (mkRat 11347 100)), ("gharama", V.num 0),
   ("kikomo_cha_siku", V.num 499870)]

/-- A balance message whose amount fragment `1.2.3` is captured by `[\d,.]+`
but is not a valid decimal literal. -/
def msgBadAmount : String :=
  "Baki yako ni: Akaunti ya M-PESA : Ksh1.2.3 Tarehe 13/1/25 saa 5:36 PM."

/-- The insufficient-funds scenario of the specification. -/
def msgInsufficient : String :=
  "Hakuna pesa za kutosha katika akaunti yako ya M-PESA kuweza kutuma Ksh3,251.00."

/-! Minimal messages, one per category grammar, and their parse results. -/

def msgKutumaMin : String :=
  "Ksh10.00 imetumwa kwa John Doe 0712345678 tarehe 13/1/25 saa 5:36 PM"

def dKutumaMin : Dict :=
  [("KUTUMA", V.str msgKutumaMin),
   ("kutuma_recipient", V.str "John Doe"), ("kutuma_phone", V.str "0712345678"),
   ("kutuma_date", V.str "13/1/25"), ("kutuma_time", V.str "5:36 PM"),
   ("hali", V.str "IMEFAULU"), ("aina_ya_muamala", V.str "KUTUMA"),
   ("kiasi", V.num 10)]

def msgKupokeaMin : String :=
  "Umepokea Ksh1.00 kutoka John Doe 0729641937 mnamo 13/1/25 saa 5:39 PM"

def dKupokeaMin : Dict :=
  [("KUPOKEA", V.str msgKupokeaMin),
   ("kupokea_sender", V.str "John Doe"), ("kupokea_phone", V.str "0729641937"),
   ("kupokea_date", V.str "13/1/25"), ("kupokea_time", V.str "5:39 PM"),
   ("hali", V.str "IMEFAULU"), ("aina_ya_muamala", V.str "KUPOKEA"),
   ("kiasi", V.num 1)]

def msgSalioMin : String :=
  "Baki yako ni: Akaunti ya M-PESA : Ksh263.47 Tarehe 13/1/25 saa 5:36 PM"

def dSalioMin : Dict :=
  [("SALIO", V.str msgSalioMin),
   ("salio_date", V.str "13/1/25"), ("salio_time", V.str "5:36 PM"),
   ("hali", V.str "IMEFAULU"), ("aina_ya_muamala", V.str "SALIO"),
   ("kiasi", V.num (mkRat 26347 100))]

def msgKulipaMin : String :=
  "Umelipa Ksh20.00 kwa JUDITH WERE 14/1/25 4:53 PM"

def dKulipaMin : Dict :=
  [("KULIPA_TILL", V.str msgKulipaMin),
   ("kulipa_amount", V.str "20.00"), ("kulipa_merchant", V.str "JUDITH WERE"),
   ("kulipa_date", V.str "14/1/25"), ("kulipa_time", V.str "4:53 PM"),
   ("hali", V.str "IMEFAULU"), ("aina_ya_muamala", V.str "KULIPA_TILL")]

def msgDataMin : String :=
  "Ksh15.00 zimetumwa kwa SAFARICOM DATA BUNDLES mnamo 15/1/25 saa 8:44 PM"

def dDataMin : Dict :=
  [("DATA", V.str msgDataMin),
   ("data_date", V.str "15/1/25"), ("data_time", V.str "8:44 PM"),
   ("hali", V.str "IMEFAULU"), ("aina_ya_muamala", V.str "DATA"),
   ("kiasi", V.num 15)]

def msgMjazoMin : String :=
  "Umenunua Ksh5.00 ya mjazo siku 15/1/25 saa 8:44 PM"

def dMjazoMin : Dict :=
  [("MJAZO", V.str msgMjazoMin),
   ("mjazo_date", V.str "15/1/25"), ("mjazo_time", V.str "8:44 PM"),
   ("hali", V.str "IMEFAULU"), ("aina_ya_muamala", V.str "MJAZO"),
   ("kiasi", V.num 5)]

def msgPaybillMin : String :=
  "Ksh100.00 imetumwa kwa EQUITY PAYBILL ACCOUNT kwa akaunti nambari 247247"

def dPaybillMin : Dict :=
  [("PAYBILL", V.str msgPaybillMin),
   ("paybill_name", V.str "EQUITY PAYBILL ACCOUNT"), ("paybill_account", V.str "247247"),
   ("hali", V.str "IMEFAULU"), ("aina_ya_muamala", V.str "PAYBILL"),
   ("kiasi", V.num 100)]

def msgBankMin : String :=
  "Umepokea Ksh500.00 kutoka EQUITY BULK ACCOUNT 12345 mnamo 13/1/25 saa 5:39 PM"

def dBankMin : Dict :=
  [("KUPOKEA_BANK", V.str msgBankMin),
   ("kupokea_bank_name", V.str "EQUITY BULK ACCOUNT"),
   ("kupokea_bank_account", V.str "12345"),
   ("kupokea_bank_date", V.str "13/1/25"), ("kupokea_bank_time", V.str "5:39 PM"),
   ("hali", V.str "IMEFAULU"), ("aina_ya_muamala", V.str "KUPOKEA_BANK"),
   ("kiasi", V.num 500)]

def msgPochiMin : String :=
  "Ksh10.00 imetumwa kwa MERCILINE OSEWE tarehe 14/1/25 saa 6:34 PM"

def dPochiMin : Dict :=
  [("POCHI_LA_BIASHARA", V.str msgPochiMin),
   ("pochi_amount", V.str "10.00"), ("pochi_recipient", V.str "MERCILINE OSEWE"),
   ("pochi_date", V.str "14/1/25"), ("pochi_time", V.str "6:34 PM"),
   ("hali", V.str "IMEFAULU"), ("aina_ya_muamala", V.str "POCHI_LA_BIASHARA")]

/-! Messages probing the order of the trailing-information extractors. -/

/-- Trailing fields in the registry's fixed order: balance, cost, limit. -/
def msgTrailInOrder : String :=
  "Umenunua Ksh5.00 ya mjazo siku 15/1/25 saa 8:44 PM. Baki mpya ya M-PESA ni Ksh38.47. Gharama ya kununua ni Ksh0.00. Kiwango cha Pesa unachoweza kutuma kwa siku ni 499,950.00."

def dTrailInOrder : Dict :=
  [("MJAZO", V.str "Umenunua Ksh5.00 ya mjazo siku 15/1/25 saa 8:44 PM"),
   ("mjazo_date", V.str "15/1/25"), ("mjazo_time", V.str "8:44 PM"),
   ("hali", V.str "IMEFAULU"), ("aina_ya_muamala", V.str "MJAZO"),
   ("kiasi", V.num 5), ("salio_la_mpesa", V.num (mkRat 3847 100)),
   ("gharama", V.num 0), ("kikomo_cha_siku", V.num 499950)]

/-- The daily limit before the balance: both follow the primary fragment. -/
def msgTrailOutOfOrder : String :=
  "Umenunua Ksh5.00 ya mjazo siku 15/1/25 saa 8:44 PM. Kiwango cha Pesa unachoweza kutuma kwa siku ni 499,950.00. Baki mpya ya M-PESA ni Ksh38.47."

def dTrailOutOfOrder : Dict :=
  [("MJAZO", V.str "Umenunua Ksh5.00 ya mjazo siku 15/1/25 saa 8:44 PM"),
   ("mjazo_date", V.str "15/1/25"), ("mjazo_time", V.str "8:44 PM"),
   ("hali", V.str "IMEFAULU"), ("aina_ya_muamala", V.str "MJAZO"),
   ("kiasi", V.num 5), ("salio_la_mpesa", V.num (mkRat 3847 100))]

/-- A pay-merchant text followed by a send-money text: the send-money grammar
(registered first) matches only at a later position. -/
def msgTwoGrammars : String :=
  "Umelipa Ksh20.00 kwa JUDITH WERE 14/1/25 4:53 PM. Ksh10.00 imetumwa kwa John Doe 0712345678 tarehe 13/1/25 saa 5:36 PM"

def dTwoGrammars : Dict :=
  [("KULIPA_TILL", V.str "Umelipa Ksh20.00 kwa JUDITH WERE 14/1/25 4:53 PM"),
   ("kulipa_amount", V.str "20.00"), ("kulipa_merchant", V.str "JUDITH WERE"),
   ("kulipa_date", V.str "14/1/25"), ("kulipa_time", V.str "4:53 PM"),
   ("hali", V.str "IMEFAULU"), ("aina_ya_muamala", V.str "KULIPA_TILL")]

/-! ## Dictionary lemmas -/

theorem lookup_mapset_of_mem (k : String) (v : V) :
    ∀ d : Dict, (d.any fun p => p.1 = k) = true →
      dget (d.map fun p => if p.1 = k then (k, v) else p) k = some v := by
  intro d
  induction d with
  | nil => intro h; simp at h
  | cons p d ih =>
    intro h
    by_cases hp : p.1 = k
    · simp [dget, hp]
    · simp only [List.any_cons, Bool.or_eq_true, decide_eq_true_eq] at h
      simp only [List.map_cons, if_neg hp, dget, if_neg hp]
      exact ih (by simpa [hp] using h)

theorem lookup_append_single (k : String) (v : V) :
    ∀ d : Dict, (d.any fun p => p.1 = k) = false →
      dget (d ++ [(k, v)]) k = some v := by
  intro d
  induction d with
  | nil => intro _; simp [dget]
  | cons p d ih =>
    intro h
    simp only [List.any_cons, Bool.or_eq_false_iff, decide_eq_false_iff_not] at h
    simp only [List.cons_append, dget, if_neg (fun he => h.1 he)]
    exact ih h.2

theorem lookup_mapset_ne (k k' : String) (v : V) (h : k' ≠ k) :
    ∀ d : Dict, dget (d.map fun p => if p.1 = k then (k, v) else p) k' = dget d k' := by
  intro d
  induction d with
  | nil => rfl
  | cons p d ih =>
    by_cases hp : p.1 = k
    · have h1 : ¬ k = k' := fun he => h he.symm
      have h2 : ¬ p.1 = k' := fun he => h (hp ▸ he).symm
      simp only [List.map_cons, if_pos hp, dget, if_neg h1, if_neg h2]
      exact ih
    · simp only [List.map_cons, if_neg hp, dget]
      by_cases hkp : p.1 = k'
      · simp [hkp]
      · simp only [if_neg hkp]
        exact ih

theorem lookup_append_ne (k k' : String) (v : V) (h : k' ≠ k) :
    ∀ d : Dict, dget (d ++ [(k, v)]) k' = dget d k' := by
  intro d
  induction d with
  | nil =>
    simp only [List.nil_append, dget]
    rw [if_neg (fun he : k = k' => h he.symm)]
  | cons p d ih =>
    simp only [List.cons_append, dget]
    by_cases hkp : p.1 = k'
    · simp [hkp]
    · simp only [if_neg hkp]
      exact ih

theorem dget_dset_self (d : Dict) (k : String) (v : V) :
    dget (dset d k v) k = some v := by
  unfold dset
  split
  · rename_i h
    exact lookup_mapset_of_mem k v d h
  · rename_i h
    exact lookup_append_single k v d (by rwa [Bool.not_eq_true] at h)

theorem dget_dset_ne (d : Dict) (k k' : String) (v : V) (h : k' ≠ k) :
    dget (dset d k v) k' = dget d k' := by
  unfold dset
  split
  · exact lookup_mapset_ne k k' v h d
  · exact lookup_append_ne k k' v h d

theorem dget_ddel_ne (d : Dict) (k k' : String) (h : k' ≠ k) :
    dget (ddel d k) k' = dget d k' := by
  unfold ddel
  induction d with
  | nil => rfl
  | cons p d ih =>
    by_cases hp : p.1 = k
    · have : ¬ p.1 = k' := fun he => h ((hp ▸ he).symm ▸ rfl)
      simp only [List.filter_cons, decide_eq_true_eq]
      rw [if_neg (by simp [hp])]
      simp only [dget, if_neg this]
      exact ih
    · simp only [List.filter_cons]
      rw [if_pos (by simp [hp])]
      simp only [dget]
      by_cases hkp : p.1 = k'
      · simp [hkp]
      · simp only [if_neg hkp]
        exact ih

/-- Keys of the form `x ++ "_amount"` are never `"hali"` (length 4 vs ≥ 7). -/
theorem amount_key_ne_hali (t : String) : pyLower t ++ "_amount" ≠ "hali" := by
  intro h
  have hlen := congrArg String.length h
  rw [String.length_append] at hlen
  have h2 : ("_amount" : String).length = 7 := rfl
  have h3 : ("hali" : String).length = 4 := rfl
  omega

theorem goTx_preserves_hali (v : V) :
    ∀ (ts : List String) (d d' : Dict), goTx ts d = some d' →
      dget d "hali" = some v → dget d' "hali" = some v := by
  intro ts
  induction ts with
  | nil => intro d d' h hd; cases h; exact hd
  | cons t ts ih =>
    intro d d' h hd
    by_cases ht : truthy (dget d t)
    · rw [goTx, if_pos ht] at h
      have h1 : dget (dset d "aina_ya_muamala" (V.str t)) "hali" = some v := by
        rw [dget_dset_ne _ _ _ _ (by decide)]; exact hd
      rcases hak : dget (dset d "aina_ya_muamala" (V.str t)) (pyLower t ++ "_amount") with _ | w
      · rw [hak] at h
        cases h
        exact h1
      · rw [hak] at h
        rcases Option.bind_eq_some.1 h with ⟨q, _, hq2⟩
        cases hq2
        rw [dget_ddel_ne _ _ _ (fun he => amount_key_ne_hali t he.symm),
          dget_dset_ne _ _ _ _ (by decide)]
        exact h1
    · rw [goTx, if_neg ht] at h
      exact ih d d' h hd

theorem numFold_preserves_hali (v : V) :
    ∀ (fs : List (String × String)) (d d' : Dict),
      (∀ p ∈ fs, p.1 ≠ "hali" ∧ p.2 ≠ "hali") →
      numFold fs d = some d' →
      dget d "hali" = some v → dget d' "hali" = some v := by
  intro fs
  induction fs with
  | nil => intro d d' _ h hd; cases h; exact hd
  | cons p fs ih =>
    intro d d' hne h hd
    unfold numFold at h
    have hp := hne p (by simp)
    split at h
    · rcases Option.bind_eq_some.1 h with ⟨q, _, hq2⟩
      refine ih _ _ (fun r hr => hne r (by simp [hr])) hq2 ?_
      rw [dget_ddel_ne _ _ _ (fun he => hp.1 he.symm),
        dget_dset_ne _ _ _ _ (fun he => hp.2 he.symm)]
      exact hd
    · exact ih _ _ (fun r hr => hne r (by simp [hr])) h hd

theorem dtStep_preserves_hali (d : Dict) (v : V)
    (hd : dget d "hali" = some v) : dget (dtStep d) "hali" = some v := by
  unfold dtStep
  split
  · split
    · rw [dget_ddel_ne _ _ _ (by decide), dget_ddel_ne _ _ _ (by decide),
        dget_dset_ne _ _ _ _ (by decide)]
      exact hd
    · exact hd
  · exact hd

/-! ## Matcher lemmas -/

theorem plitTok_matches_self (c : Nat) : (plitTok c).matches c = true := by
  unfold plitTok
  by_cases h : c = 32
  · subst h; rfl
  · rw [if_neg h]
    simp [Tok.matches]

/-- A literal pattern consumes exactly its own text. -/
theorem reMatch_litsL (k : List Nat → Nat → Caps → Option Caps) :
    ∀ (cs rest : List Nat) (pos : Nat) (caps : Caps),
      reMatch (litsL cs) (cs ++ rest) pos caps k = k rest (pos + cs.length) caps := by
  intro cs
  induction cs with
  | nil =>
    intro rest pos caps
    simp [litsL, reMatch]
  | cons c cs ih =>
    intro rest pos caps
    simp only [litsL, reMatch, List.cons_append, plitTok_matches_self, if_pos]
    rw [ih]
    have : pos + 1 + cs.length = pos + (c :: cs).length := by
      simp [List.length_cons]; omega
    rw [this]

theorem oelse_isSome_left (a : Option Caps) (b : Unit → Option Caps)
    (h : a.isSome = true) : (oelse a b).isSome = true := by
  cases a with
  | some v => rfl
  | none => cases h

theorem oelse_isSome_right (a : Option Caps) (b : Unit → Option Caps)
    (h : (b ()).isSome = true) : (oelse a b).isSome = true := by
  cases a with
  | some v => rfl
  | none => exact h

theorem oelse_eq_some (a : Option Caps) (b : Unit → Option Caps) (v : Caps)
    (h : oelse a b = some v) : a = some v ∨ (a = none ∧ b () = some v) := by
  cases a with
  | some w => exact Or.inl h
  | none => exact Or.inr ⟨rfl, h⟩

/-- Every successful result of the matcher comes out of its continuation. -/
theorem repMatch_some (t : Tok) (lz : Bool) (k : List Nat → Nat → Caps → Option Caps) :
    ∀ (s : List Nat) (lo : Nat) (hi : Option Nat) (pos : Nat) (caps v : Caps),
      repMatch t lz k s lo hi pos caps = some v →
      ∃ s' p' c', k s' p' c' = some v := by
  intro s
  induction s with
  | nil =>
    intro lo hi pos caps v h
    unfold repMatch at h
    split at h
    · exact ⟨_, _, _, h⟩
    · cases h
  | cons c rest ih =>
    intro lo hi pos caps v h
    unfold repMatch at h
    split at h
    · split at h
      · exact ⟨_, _, _, h⟩
      · cases h
    · split at h
      · split at h
        · rcases oelse_eq_some _ _ _ h with h1 | ⟨_, h2⟩
          · exact ⟨_, _, _, h1⟩
          · split at h2
            · exact ih _ _ _ _ _ h2
            · cases h2
        · rcases oelse_eq_some _ _ _ h with h1 | ⟨_, h2⟩
          · split at h1
            · exact ih _ _ _ _ _ h1
            · cases h1
          · exact ⟨_, _, _, h2⟩
      · split at h
        · exact ih _ _ _ _ _ h
        · cases h

theorem reMatch_some :
    ∀ (r : RE) (s : List Nat) (pos : Nat) (caps : Caps)
      (k : List Nat → Nat → Caps → Option Caps) (v : Caps),
      reMatch r s pos caps k = some v → ∃ s' p' c', k s' p' c' = some v := by
  intro r
  induction r with
  | eps =>
    intro s pos caps k v h
    exact ⟨_, _, _, h⟩
  | tok t =>
    intro s pos caps k v h
    unfold reMatch at h
    cases s with
    | nil => cases h
    | cons c rest =>
      have h' : (if t.matches c = true then k rest (pos + 1) caps else none) = some v := h
      by_cases hm : t.matches c = true
      · rw [if_pos hm] at h'
        exact ⟨_, _, _, h'⟩
      · rw [if_neg hm] at h'
        cases h'
  | seq a b iha ihb =>
    intro s pos caps k v h
    unfold reMatch at h
    rcases iha _ _ _ _ _ h with ⟨s1, p1, c1, h1⟩
    exact ihb _ _ _ _ _ h1
  | alt a b iha ihb =>
    intro s pos caps k v h
    unfold reMatch at h
    rcases oelse_eq_some _ _ _ h with h1 | ⟨_, h2⟩
    · exact iha _ _ _ _ _ h1
    · exact ihb _ _ _ _ _ h2
  | opt a iha =>
    intro s pos caps k v h
    unfold reMatch at h
    rcases oelse_eq_some _ _ _ h with h1 | ⟨_, h2⟩
    · exact iha _ _ _ _ _ h1
    · exact ⟨_, _, _, h2⟩
  | rep lo hi lz t =>
    intro s pos caps k v h
    exact repMatch_some t lz k s lo hi pos caps v h
  | grp n a iha =>
    intro s pos caps k v h
    unfold reMatch at h
    rcases iha _ _ _ _ _ h with ⟨s1, p1, c1, h1⟩
    exact ⟨s1, p1, (n, pos, p1) :: c1, h1⟩

/-- If the match attempt at a position succeeds, the search from it succeeds. -/
theorem reSearch_isSome_of_match (r : RE) (s : List Nat) (pos : Nat)
    (h : (reMatch r s pos [] kTop).isSome = true) :
    (reSearch r s pos).isSome = true := by
  rcases Option.isSome_iff_exists.1 (by simpa using h) with ⟨caps, hc⟩
  cases s with
  | nil =>
    rw [reSearch, hc]
    rfl
  | cons c rest =>
    rw [reSearch, hc]
    rfl

/-- If a match attempt succeeds after skipping a prefix, the search succeeds. -/
theorem reSearch_isSome (r : RE) :
    ∀ (pre tail : List Nat) (pos : Nat),
      (reMatch r tail (pos + pre.length) [] kTop).isSome = true →
      (reSearch r (pre ++ tail) pos).isSome = true := by
  intro pre
  induction pre with
  | nil =>
    intro tail pos h
    rw [List.nil_append]
    exact reSearch_isSome_of_match r tail pos (by simpa using h)
  | cons c pre ih =>
    intro tail pos h
    rw [List.cons_append, reSearch]
    cases h1 : reMatch r (c :: (pre ++ tail)) pos [] kTop with
    | some caps => rfl
    | none =>
      exact ih tail (pos + 1)
        (by
          have he : pos + 1 + pre.length = pos + (c :: pre).length := by
            simp [List.length_cons]; omega
          rw [he]
          exact h)

/-- One unfolding step of `reMatch` on a named group. -/
theorem reMatch_grp (n : String) (r : RE) (s : List Nat) (pos : Nat) (caps : Caps)
    (k : List Nat → Nat → Caps → Option Caps) :
    reMatch (RE.grp n r) s pos caps k =
      reMatch r s pos caps (fun s1 p1 c1 => k s1 p1 ((n, pos, p1) :: c1)) := rfl

/-- A successful search for a pattern wrapped in a named group always
records that group as its outermost capture. -/
theorem reSearch_grp_head (n : String) (r : RE) :
    ∀ (s : List Nat) (pos : Nat) (caps : Caps),
      reSearch (RE.grp n r) s pos = some caps →
      ∃ i j c', caps = (n, i, j) :: c' := by
  intro s
  induction s with
  | nil =>
    intro pos caps h
    rw [reSearch] at h
    cases h1 : reMatch (RE.grp n r) [] pos [] kTop with
    | some w =>
      rw [h1] at h
      have hw : w = caps := Option.some.inj h
      rw [reMatch_grp] at h1
      rcases reMatch_some _ _ _ _ _ _ h1 with ⟨s1, p1, c1, hk⟩
      have hc : some ((n, pos, p1) :: c1) = some w := hk
      exact ⟨pos, p1, c1, hw ▸ (Option.some.inj hc).symm⟩
    | none =>
      rw [h1] at h
      cases h
  | cons c rest ih =>
    intro pos caps h
    rw [reSearch] at h
    cases h1 : reMatch (RE.grp n r) (c :: rest) pos [] kTop with
    | some w =>
      rw [h1] at h
      have hw : w = caps := Option.some.inj h
      rw [reMatch_grp] at h1
      rcases reMatch_some _ _ _ _ _ _ h1 with ⟨s1, p1, c1, hk⟩
      have hc : some ((n, pos, p1) :: c1) = some w := hk
      exact ⟨pos, p1, c1, hw ▸ (Option.some.inj hc).symm⟩
    | none =>
      rw [h1] at h
      exact ih (pos + 1) caps h

theorem prefixOfB_append :
    ∀ (p m : List Nat), prefixOfB p m = true → ∃ rest, m = p ++ rest := by
  intro p
  induction p with
  | nil => intro m _; exact ⟨m, rfl⟩
  | cons a as ih =>
    intro m h
    cases m with
    | nil => cases h
    | cons b bs =>
      simp only [prefixOfB, Bool.and_eq_true, beq_iff_eq] at h
      rcases ih bs h.2 with ⟨rest, hr⟩
      refine ⟨rest, ?_⟩
      rw [← h.1, hr, List.cons_append]

theorem occursInB_decomp :
    ∀ (m p : List Nat), occursInB p m = true → ∃ pre rest, m = pre ++ (p ++ rest) := by
  intro m
  induction m with
  | nil =>
    intro p h
    unfold occursInB at h
    rcases prefixOfB_append p [] h with ⟨rest, hr⟩
    exact ⟨[], rest, by simpa using hr⟩
  | cons c m ih =>
    intro p h
    unfold occursInB at h
    rw [Bool.or_eq_true] at h
    rcases h with h1 | h2
    · rcases prefixOfB_append _ _ h1 with ⟨rest, hr⟩
      exact ⟨[], rest, by simpa using hr⟩
    · rcases ih p h2 with ⟨pre, rest, hr⟩
      exact ⟨c :: pre, rest, by simp [hr]⟩

theorem reMatch_alt_isSome_left (a b : RE) (s : List Nat) (pos : Nat) (caps : Caps)
    (k : List Nat → Nat → Caps → Option Caps)
    (h : (reMatch a s pos caps k).isSome = true) :
    (reMatch (RE.alt a b) s pos caps k).isSome = true := by
  unfold reMatch
  exact oelse_isSome_left _ _ h

theorem reMatch_alt_isSome_right (a b : RE) (s : List Nat) (pos : Nat) (caps : Caps)
    (k : List Nat → Nat → Caps → Option Caps)
    (h : (reMatch b s pos caps k).isSome = true) :
    (reMatch (RE.alt a b) s pos caps k).isSome = true := by
  unfold reMatch
  exact oelse_isSome_right _ _ h

/-- A failure phrase occurring verbatim in the message makes the
(case-sensitive) failure search succeed. -/
theorem failedSearch_of_contains (msg : String)
    (h : containsFailurePhrase msg = true) :
    ∃ i j, failedSearch msg = some (i, j) := by
  unfold containsFailurePhrase at h
  rcases List.any_eq_true.1 h with ⟨p, hp, hocc⟩
  rcases occursInB_decomp _ _ hocc with ⟨pre, rest, hdec⟩
  have hsome : (reMatch failed_pattern (strCodes p ++ rest) (0 + pre.length) [] kTop).isSome = true := by
    unfold failed_pattern
    rw [reMatch_grp]
    have hlit : ∀ (l : RE) (cs : List Nat), l = litsL cs →
        (reMatch l (cs ++ rest) (0 + pre.length) []
          (fun s1 p1 c1 => kTop s1 p1 (("failed", 0 + pre.length, p1) :: c1))).isSome = true := by
      intro l cs hl
      rw [hl, reMatch_litsL]
      rfl
    simp only [failedPhrases, List.mem_cons, List.mem_singleton] at hp
    rcases hp with hp | hp | hp | hp | hp
    · subst hp
      exact reMatch_alt_isSome_left _ _ _ _ _ _ (hlit _ _ rfl)
    · subst hp
      exact reMatch_alt_isSome_right _ _ _ _ _ _
        (reMatch_alt_isSome_left _ _ _ _ _ _ (hlit _ _ rfl))
    · subst hp
      exact reMatch_alt_isSome_right _ _ _ _ _ _
        (reMatch_alt_isSome_right _ _ _ _ _ _
          (reMatch_alt_isSome_left _ _ _ _ _ _ (hlit _ _ rfl)))
    · subst hp
      exact reMatch_alt_isSome_right _ _ _ _ _ _
        (reMatch_alt_isSome_right _ _ _ _ _ _
          (reMatch_alt_isSome_right _ _ _ _ _ _ (hlit _ _ rfl)))
    · cases hp
  have hsearch : (reSearch failed_pattern (strCodes msg) 0).isSome = true := by
    rw [hdec]
    exact reSearch_isSome failed_pattern pre (strCodes p ++ rest) 0 hsome
  rcases Option.isSome_iff_exists.1 (by simpa using hsearch) with ⟨caps, hc⟩
  rcases reSearch_grp_head "failed" _ _ _ _ hc with ⟨i, j, c', hcaps⟩
  refine ⟨i, j, ?_⟩
  unfold failedSearch
  rw [hc, hcaps]
  simp [List.lookup]

/-- `parse_message` can only fail to return a value on the matched path:
the failure and unrecognized paths always return result dictionaries. -/
theorem parse_none_only_matched (msg : String) (h : parse_message msg = none) :
    failedSearch msg = none ∧ (mainSearch msg).isSome = true := by
  unfold parse_message at h
  cases hf : failedSearch msg with
  | some ij =>
    rw [hf] at h
    cases ij
    exact Option.noConfusion h
  | none =>
    rw [hf] at h
    cases hm : mainSearch msg with
    | none =>
      rw [hm] at h
      exact Option.noConfusion h
    | some caps =>
      exact ⟨rfl, by simp [hm]⟩

/-- Commuting a filter on codes past the char-to-code map. -/
theorem map_toNat_filter (p : Nat → Bool) :
    ∀ l : List Char, (l.filter (fun c => p c.toNat)).map Char.toNat =
      (l.map Char.toNat).filter p := by
  intro l
  induction l with
  | nil => rfl
  | cons c l ih =>
    by_cases hc : p c.toNat <;> simp [List.filter_cons, hc, ih]

theorem filter_idem (p : Nat → Bool) :
    ∀ l : List Nat, (l.filter p).filter p = l.filter p := by
  intro l
  induction l with
  | nil => rfl
  | cons c l ih =>
    by_cases hc : p c
    · simp [List.filter_cons, hc, ih]
    · simp [List.filter_cons, hc, ih]

/-! ## Claims -/

set_option maxRecDepth 100000

/-- C3 counterexample: the claim says `parse` returns a result value for
every string input; on the balance message whose captured amount fragment is
`"1.2.3"`, `clean_amount`'s `float()` raises `ValueError` which no handler
catches, so `parse_message` returns no result value at all. -/
theorem claim_C3_counterexample : parse_message msgBadAmount = none := by rfl

/-- C3 (amended): no exception escapes the failure-phrase or unrecognized
paths — whenever `parse_message` fails to return a value, no failure phrase
matched and the composite matcher did match, i.e. the only escape hatch is
amount normalization of a captured fragment; `clean_amount` signals an error
on the non-decimal fragment `"1.2.3"` and succeeds on `"263.47"`. -/
theorem claim_C3_amended :
    (∀ msg : String, parse_message msg = none →
      failedSearch msg = none ∧ (mainSearch msg).isSome = true) ∧
    clean_amount "1.2.3" = none ∧
    clean_amount "263.47" = some (mkRat 26347 100) :=
  ⟨fun msg h => parse_none_only_matched msg h, by rfl, by rfl⟩

/-- C3 witness: the amended claim applied to the crashing balance message. -/
theorem claim_C3_witness :
    parse_message msgBadAmount = none ∧
    (failedSearch msgBadAmount = none ∧ (mainSearch msgBadAmount).isSome = true) :=
  ⟨by rfl, claim_C3_amended.1 msgBadAmount (by rfl)⟩

/-- C4: every message containing one of the four fixed failure phrases
verbatim parses to the FAILURE dictionary — status `IMESHINDIKANA`, the
matched phrase under `sababu`, the original text under `ujumbe_asili` —
and nothing else, regardless of surrounding text. -/
theorem claim_C4_failure_short_circuit (msg : String)
    (h : containsFailurePhrase msg = true) :
    ∃ t, parse_message msg =
      some [("hali", V.str "IMESHINDIKANA"), ("sababu", V.str t),
        ("ujumbe_asili", V.str msg)] := by
  rcases failedSearch_of_contains msg h with ⟨i, j, hf⟩
  refine ⟨slice msg i j, ?_⟩
  unfold parse_message
  rw [hf]

/-- C4 witness: the insufficient-funds scenario message of the spec. -/
theorem claim_C4_witness :
    containsFailurePhrase msgInsufficient = true ∧
    ∃ t, parse_message msgInsufficient =
      some [("hali", V.str "IMESHINDIKANA"), ("sababu", V.str t),
        ("ujumbe_asili", V.str msgInsufficient)] :=
  ⟨by decide, claim_C4_failure_short_circuit msgInsufficient (by decide)⟩

/-- C5 counterexample: the claim says every returned mapping includes a
status field and that unrecognized input carries status UNRECOGNIZED; in
fact an unrecognized input yields `{"error": ...}`, which has no `hali`
(status) key at all. -/
theorem claim_C5_counterexample :
    parse_message "hello" = some [("error", V.str "Muundo wa ujumbe hautambuliwi")] ∧
    dget [("error", V.str "Muundo wa ujumbe hautambuliwi")] "hali" = none :=
  ⟨by rfl, by rfl⟩

/-- C5 (amended): every result of `parse_message` either carries the status
key `hali` (with `IMEFAULU` on the matched path or `IMESHINDIKANA` on the
failure path) or is exactly the status-less error mapping carrying only the
explanatory message for unrecognized input. -/
theorem claim_C5_amended (msg : String) (d : Dict) (h : parse_message msg = some d) :
    dget d "hali" = some (V.str "IMEFAULU") ∨
    dget d "hali" = some (V.str "IMESHINDIKANA") ∨
    d = [("error", V.str "Muundo wa ujumbe hautambuliwi")] := by
  unfold parse_message at h
  cases hf : failedSearch msg with
  | some ij =>
    rw [hf] at h
    cases ij with
    | mk i j =>
      cases h
      right
      left
      rfl
  | none =>
    rw [hf] at h
    cases hm : mainSearch msg with
    | none =>
      rw [hm] at h
      cases h
      right
      right
      rfl
    | some caps =>
      rw [hm] at h
      simp only [Option.bind_eq_some] at h
      rcases h with ⟨d3, h3, d4, h4, hd⟩
      have hd' : dtStep d4 = d := Option.some.inj hd
      left
      rw [← hd']
      apply dtStep_preserves_hali
      apply numFold_preserves_hali _ numeric_fields _ _ (by decide) h4
      apply goTx_preserves_hali _ txTypes _ _ h3
      exact dget_dset_self _ _ _

/-- C5 witness: the amended claim applied to an unrecognized input. -/
theorem claim_C5_witness :
    parse_message "hello" = some [("error", V.str "Muundo wa ujumbe hautambuliwi")] ∧
    (dget [("error", V.str "Muundo wa ujumbe hautambuliwi")] "hali" = some (V.str "IMEFAULU") ∨
     dget [("error", V.str "Muundo wa ujumbe hautambuliwi")] "hali" = some (V.str "IMESHINDIKANA") ∨
     [(("error" : String), V.str "Muundo wa ujumbe hautambuliwi")] =
       [(("error" : String), V.str "Muundo wa ujumbe hautambuliwi")]) :=
  ⟨by rfl, claim_C5_amended "hello" _ (by rfl)⟩

/-- C9 counterexample: the claim quantifies over every amount string, but on
`","` normalization raises (the cleaned remainder is empty, and `float("")`
is a `ValueError`), while the separator-free form `""` normalizes to `0.0` —
so the two runs do not yield the same decimal value. -/
theorem claim_C9_counterexample :
    clean_amount "," = none ∧
    clean_amount (removeCommas ",") = some 0 ∧
    clean_amount "," ≠ clean_amount (removeCommas ",") :=
  ⟨by rfl, by rfl, by decide⟩

/-- C9 (amended): for every amount string that is empty or still non-empty
after removing its thousands separators, normalization agrees with the
separator-free form; in particular `"499,870.00"` and `"499870.00"` both
normalize to `499870`. -/
theorem claim_C9_amended :
    (∀ s : String, s = "" ∨ removeCommas s ≠ "" →
      clean_amount s = clean_amount (removeCommas s)) ∧
    clean_amount "499,870.00" = clean_amount "499870.00" ∧
    clean_amount "499,870.00" = some 499870 := by
  refine ⟨?_, by rfl, by rfl⟩
  intro s h
  rcases h with h | h
  · subst h
    rfl
  · have hs : s ≠ "" := fun he => h (by rw [he]; rfl)
    unfold clean_amount
    rw [if_neg hs, if_neg h]
    have hsc : strCodes (removeCommas s) = (strCodes s).filter (fun n => n ≠ 44) := by
      unfold removeCommas strCodes
      exact map_toNat_filter (fun n => decide (n ≠ 44)) s.data
    rw [hsc, filter_idem]

/-- C9 witness: the amended claim applied to the spec's round-trip example. -/
theorem claim_C9_witness :
    ("499,870.00" = "" ∨ removeCommas "499,870.00" ≠ "") ∧
    clean_amount "499,870.00" = clean_amount (removeCommas "499,870.00") :=
  ⟨Or.inr (by decide), claim_C9_amended.1 "499,870.00" (Or.inr (by decide))⟩

/-- C10: failure-phrase detection is case-sensitive while category matching
is case-insensitive: the registered-case insufficient-funds phrase parses to
FAILURE, the all-lowercase variant does not (it falls through to the
unrecognized error result), and the category classification of the composite
matcher is invariant under any change of letter case (it is a function of
the case-folded text). -/
theorem claim_C10_case_sensitivity :
    parse_message "Hakuna pesa za kutosha katika akaunti yako" =
      some [("hali", V.str "IMESHINDIKANA"), ("sababu", V.str "Hakuna pesa za kutosha"),
        ("ujumbe_asili", V.str "Hakuna pesa za kutosha katika akaunti yako")] ∧
    parse_message "hakuna pesa za kutosha katika akaunti yako" =
      some [("error", V.str "Muundo wa ujumbe hautambuliwi")] ∧
    (∀ s t : String, foldCodes s = foldCodes t → matchedTag s = matchedTag t) := by
  refine ⟨by rfl, by rfl, ?_⟩
  intro s t h
  unfold matchedTag mainSearch
  rw [h]

/-- C10 witness: the case-invariance component applied to the two casings of
the insufficient-funds phrase message. -/
theorem claim_C10_witness :
    foldCodes "hakuna pesa za kutosha katika akaunti yako" =
      foldCodes "Hakuna pesa za kutosha katika akaunti yako" ∧
    matchedTag "hakuna pesa za kutosha katika akaunti yako" =
      matchedTag "Hakuna pesa za kutosha katika akaunti yako" :=
  ⟨by rfl, claim_C10_case_sensitivity.2.2 _ _ (by rfl)⟩

/-- C1 (code_bug evidence): on the spec's balance-inquiry scenario message
the result keeps the raw fragments `salio_date = "13/1/25"` and
`salio_time = "5:36 PM"` and has no combined `tarehe_na_saa` field — the
combination step looks up the keys `"date"`/`"time"`, which no grammar
defines.  The date/time pair itself is valid: fed to the `strptime` model in
the source's format it yields exactly the timestamp 2025-01-13T17:36 the
spec expects. -/
theorem claim_C1_timestamp_never_combined :
    parse_message msgBalanceInquiry = some dBalanceInquiry ∧
    dget dBalanceInquiry "tarehe_na_saa" = none ∧
    dget dBalanceInquiry "salio_date" = some (V.str "13/1/25") ∧
    dget dBalanceInquiry "salio_time" = some (V.str "5:36 PM") ∧
    strptimeDMYhm "13/1/25 5:36 PM" = some ⟨2025, 1, 13, 17, 36⟩ :=
  ⟨by rfl, by rfl, by rfl, by rfl, by rfl⟩

/-- C2 counterexample: the §8 send-money scenario message (no 10-digit
phone number, so the send-money grammar `KUTUMA` cannot match) classifies as
`POCHI_LA_BIASHARA`, not as the send-money tag, and carries no normalized
amount field `kiasi` at all (the loop looks for `pochi_la_biashara_amount`
while the group is `pochi_amount`). -/
theorem claim_C2_counterexample :
    parse_message msgSendMoney = some dSendMoney ∧
    dget dSendMoney "aina_ya_muamala" = some (V.str "POCHI_LA_BIASHARA") ∧
    dget dSendMoney "aina_ya_muamala" ≠ some (V.str "KUTUMA") ∧
    dget dSendMoney "kiasi" = none :=
  ⟨by rfl, by rfl, by decide, by rfl⟩

/-- C2 (amended): the §8 scenario parses to SUCCESS with category
`POCHI_LA_BIASHARA`; the amount stays as the raw fragment `"10.00"` under
`pochi_amount` (which `clean_amount` would map to `10`), the counterparty
fragment is `"MERCILINE OSEWE"`, and the daily limit is normalized to
`499870` under `kikomo_cha_siku`. -/
theorem claim_C2_amended :
    parse_message msgSendMoney = some dSendMoney ∧
    dget dSendMoney "hali" = some (V.str "IMEFAULU") ∧
    dget dSendMoney "pochi_amount" = some (V.str "10.00") ∧
    dget dSendMoney "pochi_recipient" = some (V.str "MERCILINE OSEWE") ∧
    dget dSendMoney "kikomo_cha_siku" = some (V.num 499870) ∧
    clean_amount "10.00" = some 10 :=
  ⟨by rfl, by rfl, by rfl, by rfl, by rfl, by rfl⟩

/-- C6 counterexample: a minimal balance-inquiry message parses with the raw
branch text retained under the tag key `SALIO` and the category-namespaced
fragment keys (`salio_date`) still present — extraneous fields the claim
forbids; and for a minimal pay-merchant message the mandatory amount is not
populated under the canonical `kiasi` key (it stays raw in
`kulipa_amount`, because the loop looks up `kulipa_till_amount`). -/
theorem claim_C6_counterexample :
    parse_message msgSalioMin = some dSalioMin ∧
    dget dSalioMin "SALIO" = some (V.str msgSalioMin) ∧
    dget dSalioMin "salio_date" = some (V.str "13/1/25") ∧
    parse_message msgKulipaMin = some dKulipaMin ∧
    dget dKulipaMin "kiasi" = none ∧
    dget dKulipaMin "kulipa_amount" = some (V.str "20.00") :=
  ⟨by rfl, by rfl, by rfl, by rfl, by rfl, by rfl⟩

/-- C6 (amended): for each of the nine category grammars, a minimal message
classifies as SUCCESS with exactly that tag, but the full results show that
the raw branch text is kept under the tag key, the fragments stay under
category-namespaced keys, and only the seven categories whose amount group
is named `tag.lower() + "_amount"` get a canonical `kiasi` field
(`KULIPA_TILL` and `POCHI_LA_BIASHARA` do not). -/
theorem claim_C6_amended :
    parse_message msgKutumaMin = some dKutumaMin ∧
    parse_message msgKupokeaMin = some dKupokeaMin ∧
    parse_message msgSalioMin = some dSalioMin ∧
    parse_message msgKulipaMin = some dKulipaMin ∧
    parse_message msgDataMin = some dDataMin ∧
    parse_message msgMjazoMin = some dMjazoMin ∧
    parse_message msgPaybillMin = some dPaybillMin ∧
    parse_message msgBankMin = some dBankMin ∧
    parse_message msgPochiMin = some dPochiMin :=
  ⟨by rfl, by rfl, by rfl, by rfl, by rfl, by rfl, by rfl, by rfl, by rfl⟩

/-- C7 counterexample: in a message where the daily-limit sentence appears
after the primary fragment but before the balance sentence, the limit is NOT
extracted (no `kikomo_cha_siku`), even though the balance (a later-ordered
extractor) is — extraction is not order-independent. -/
theorem claim_C7_counterexample :
    parse_message msgTrailOutOfOrder = some dTrailOutOfOrder ∧
    occursInB (strCodes "Kiwango cha Pesa unachoweza kutuma kwa siku ni 499,950.00")
      (strCodes msgTrailOutOfOrder) = true ∧
    dget dTrailOutOfOrder "kikomo_cha_siku" = none ∧
    dget dTrailOutOfOrder "salio_la_mpesa" = some (V.num (mkRat 3847 100)) :=
  ⟨by rfl, by decide, by rfl, by rfl⟩

/-- C7 (amended): the trailing extractors run once each, in the fixed order
balance → cost → limit; when the message presents them in that relative
order all three are extracted, but a trailing field placed before an
extracted earlier-in-order field is dropped (the limit preceding the
balance is lost). -/
theorem claim_C7_amended :
    parse_message msgTrailInOrder = some dTrailInOrder ∧
    dget dTrailInOrder "salio_la_mpesa" = some (V.num (mkRat 3847 100)) ∧
    dget dTrailInOrder "gharama" = some (V.num 0) ∧
    dget dTrailInOrder "kikomo_cha_siku" = some (V.num 499950) ∧
    parse_message msgTrailOutOfOrder = some dTrailOutOfOrder ∧
    dget dTrailOutOfOrder "kikomo_cha_siku" = none :=
  ⟨by rfl, by rfl, by rfl, by rfl, by rfl, by rfl⟩

/-- C8 counterexample: in the concatenated message both the send-money
grammar (`KUTUMA`, registered first) and the pay-merchant grammar
(`KULIPA_TILL`, registered fourth) match, yet parse classifies it as
`KULIPA_TILL`: the leftmost match position takes precedence over
registration order, contradicting the claim that the earlier-registered tag
always wins. -/
theorem claim_C8_counterexample :
    (grammarSpan "KUTUMA" msgTwoGrammars).isSome = true ∧
    (grammarSpan "KULIPA_TILL" msgTwoGrammars).isSome = true ∧
    List.indexOf "KUTUMA" txTypes = 0 ∧
    List.indexOf "KULIPA_TILL" txTypes = 3 ∧
    parse_message msgTwoGrammars = some dTwoGrammars ∧
    dget dTwoGrammars "aina_ya_muamala" = some (V.str "KULIPA_TILL") ∧
    dget dTwoGrammars "aina_ya_muamala" ≠ some (V.str "KUTUMA") :=
  ⟨by rfl, by rfl, by rfl, by rfl, by rfl, by rfl, by decide⟩

/-- C8 (amended): registration order decides ties only among grammars
matching at the same leftmost position — `KUPOKEA` and `KUPOKEA_BANK` both
match the receive message at span (0, 69) and parse picks the
earlier-registered `KUPOKEA`; when a later-registered grammar matches at an
earlier position (the pay-merchant text at 0 versus send-money at 50), the
leftmost one wins instead. -/
theorem claim_C8_amended :
    grammarSpan "KUPOKEA" msgKupokeaMin = some (0, 69) ∧
    grammarSpan "KUPOKEA_BANK" msgKupokeaMin = some (0, 69) ∧
    List.indexOf "KUPOKEA" txTypes = 1 ∧
    List.indexOf "KUPOKEA_BANK" txTypes = 7 ∧
    parse_message msgKupokeaMin = some dKupokeaMin ∧
    dget dKupokeaMin "aina_ya_muamala" = some (V.str "KUPOKEA") ∧
    grammarSpan "KUTUMA" msgTwoGrammars = some (50, 118) ∧
    grammarSpan "KULIPA_TILL" msgTwoGrammars = some (0, 48) ∧
    dget dTwoGrammars "aina_ya_muamala" = some (V.str "KULIPA_TILL") :=
  ⟨by rfl, by rfl, by rfl, by rfl, by rfl, by rfl, by rfl, by rfl, by rfl⟩

end MPesa
